import Mathlib

/-!
# mtb_kvstore_cat5: a shallow embedding of the CAT5 key-value store adapter

The adapter in `mtb_kvstore_cat5.c` validates its arguments, takes the handle's mutex,
forwards the request to the value store of the device firmware (`config_VS_*`) and
translates the status it gets back.  The value store, the RTOS abstraction (`cy_rtos_*`)
and `cy_result.h` are not part of the repository, so they are parameters here:

* `Config` holds the constants and the build switch the C files read from other headers;
* `Env W` holds the functions of the RTOS and of the value store, acting on a world `W`;
* `State W` is the world together with the list of calls made into `Env` so far and the
  number of `CY_ASSERT`s that failed.

`CY_ASSERT` is not part of the repository either: a failed assertion is counted in the state
and execution goes on, which is what a build with assertions compiled out does; a build
whose `CY_ASSERT` halts stops at the first counted failure.

Pointers are `Option`s of the contents they point to (`none` is `NULL`); a function that
writes through a pointer returns the new contents.
-/

namespace KvStoreCat5

/-! ## Constants taken from outside the repository -/

/-- Constants and build switch of one build of the library: `rtosAware` is
`defined(CY_RTOS_AWARE) || defined(COMPONENT_RTOS_AWARE)`, the `CY_RSLT_*` fields come from
`cy_result.h`, `CY_RTOS_NEVER_TIMEOUT` from `cyabs_rtos.h`, the `VS_RET_*` status codes from
the value store's header, and `MTB_KVSTORE_MUTEX_TIMEOUT_MS` is the overridable timeout of
`mtb_kvstore_cat5.h` (50 when the build does not define it). -/
structure Config where
  rtosAware : Bool
  CY_RSLT_SUCCESS : Nat
  CY_RSLT_TYPE_ERROR : Nat
  CY_RSLT_MODULE_MIDDLEWARE_KVSTORE_CAT5 : Nat
  CY_RSLT_CREATE : Nat → Nat → Nat → Nat
  MTB_KVSTORE_MUTEX_TIMEOUT_MS : Nat
  CY_RTOS_NEVER_TIMEOUT : Nat
  VS_RET_OK : Nat
  VS_RET_FAIL_OVERWRITE : Nat
  VS_RET_FAIL_MEMACESS : Nat
  VS_RET_FAIL_INSUFFICIENT_STORAGE : Nat
  VS_RET_FAIL_RECORD_NOT_FOUND : Nat

/-- Maximum value of the numeric key identifier (`mtb_kvstore_cat5.h`). -/
def MTB_KVSTORE_MAX_KEY_VAL : Nat := 0x3FFE

/-- Error code number `code` of this module: `CY_RSLT_CREATE(CY_RSLT_TYPE_ERROR,
CY_RSLT_MODULE_MIDDLEWARE_KVSTORE_CAT5, code)`. -/
def kvstoreError (P : Config) (code : Nat) : Nat :=
  P.CY_RSLT_CREATE P.CY_RSLT_TYPE_ERROR P.CY_RSLT_MODULE_MIDDLEWARE_KVSTORE_CAT5 code

def MTB_KVSTORE_BAD_PARAM_ERROR (P : Config) : Nat := kvstoreError P 0
def MTB_KVSTORE_ALIGNMENT_ERROR (P : Config) : Nat := kvstoreError P 1
def MTB_KVSTORE_MEM_ALLOC_ERROR (P : Config) : Nat := kvstoreError P 2
def MTB_KVSTORE_INVALID_DATA_ERROR (P : Config) : Nat := kvstoreError P 3
def MTB_KVSTORE_ERASED_DATA_ERROR (P : Config) : Nat := kvstoreError P 4
def MTB_KVSTORE_ITEM_NOT_FOUND_ERROR (P : Config) : Nat := kvstoreError P 5
def MTB_KVSTORE_STORAGE_FULL_ERROR (P : Config) : Nat := kvstoreError P 6
def MTB_KVSTORE_BUFFER_TOO_SMALL (P : Config) : Nat := kvstoreError P 7
def MTB_KVSTORE_OVERWRITE_ERROR (P : Config) : Nat := kvstoreError P 8
def MTB_KVSTORE_WRITE_ERROR (P : Config) : Nat := kvstoreError P 9
def MTB_KVSTORE_UNSUPPORTED (P : Config) : Nat := kvstoreError P 10
def MTB_KVSTORE_MEM_ACCESS_ERROR (P : Config) : Nat := kvstoreError P 11
def MTB_KVSTORE_UNKNOWN_ERROR (P : Config) : Nat := kvstoreError P 12

/-! ## Data model -/

/-- KV store context: the `ptr` field and the `cy_mutex_t` object, kept as an uninterpreted
value (the field exists in RTOS-aware builds only; other builds never look at it). -/
structure mtb_kvstore_t where
  ptr : Nat
  mtb_kvstore_mutex : Nat
deriving DecidableEq, Repr

/-- One call from the adapter into the RTOS or into the value store, with the arguments
passed (a mutex argument is the value of the mutex object at the time of the call) and the
status the callee returned. -/
inductive Event where
  | init_mutex (mutex : Nat) (result : Nat)
  | get_mutex (mutex : Nat) (timeout_ms : Nat) (result : Nat)
  | set_mutex (mutex : Nat) (result : Nat)
  | deinit_mutex (mutex : Nat) (result : Nat)
  | VS_write (key : Nat) (data : List Nat) (size : Nat) (overwrite : Bool) (ret : Nat)
  | VS_read (key : Nat) (data : List Nat) (size : Nat) (ret : Nat)
  | VS_value_size (key : Nat) (ret : Nat)
  | VS_delete (key : Nat) (ret : Nat)
  | VS_erase (ret : Nat)
deriving DecidableEq, Repr

/-- The functions the adapter calls and does not define.  Each takes the world and returns
its status with the new world.  The mutex functions get the current value of the mutex
object they are pointed at and return its new value; `config_VS_read` gets the contents of
the buffer and of `*size` and returns the new contents of both; `config_VS_value_size`
returns what it stores to its output parameter, `none` when it stores nothing. -/
structure Env (W : Type) where
  cy_rtos_init_mutex : Nat → W → Nat × Nat × W
  cy_rtos_get_mutex : Nat → Nat → W → Nat × Nat × W
  cy_rtos_set_mutex : Nat → W → Nat × Nat × W
  cy_rtos_deinit_mutex : Nat → W → Nat × Nat × W
  config_VS_write : Nat → List Nat → Nat → Bool → W → Nat × W
  config_VS_read : Nat → List Nat → Nat → W → Nat × List Nat × Nat × W
  config_VS_value_size : Nat → W → Nat × Option Nat × W
  config_VS_delete : Nat → W → Nat × W
  config_VS_erase : W → Nat × W

/-- Everything outside the adapter: the world the callees act on, the calls made so far,
oldest first, and how many `CY_ASSERT` conditions were false. -/
structure State (W : Type) where
  world : W
  trace : List Event
  assert_failures : Nat

/-- What a status-returning function of the API leaves behind: the `cy_rslt_t` it returns,
the contents of `*obj` (`none` for a null handle) and the state. -/
structure Ret (W : Type) where
  result : Nat
  obj : Option mtb_kvstore_t
  st : State W

/-- What `mtb_kvstore_read_numeric_key` leaves behind: as `Ret`, with the contents of the
caller's buffer and of `*size`. -/
structure ReadRet (W : Type) where
  result : Nat
  obj : Option mtb_kvstore_t
  data : Option (List Nat)
  size : Option Nat
  st : State W

variable {W : Type}

/-- The macro `CY_ASSERT(cond)`: a false condition is counted; execution goes on as in a
build with assertions compiled out. -/
def CY_ASSERT (cond : Bool) (s : State W) : State W :=
  if cond then s else { s with assert_failures := s.assert_failures + 1 }

/-! ## Internal helper functions -/

def _mtb_kvstore_initlock (P : Config) (X : Env W) (obj : mtb_kvstore_t) (s : State W) :
    Nat × mtb_kvstore_t × State W :=
  if P.rtosAware then
    let r := X.cy_rtos_init_mutex obj.mtb_kvstore_mutex s.world
    (r.1, { obj with mtb_kvstore_mutex := r.2.1 },
      { s with world := r.2.2,
               trace := s.trace ++ [Event.init_mutex obj.mtb_kvstore_mutex r.1] })
  else
    (P.CY_RSLT_SUCCESS, obj, s)

def _mtb_kvstore_lock (P : Config) (X : Env W) (obj : mtb_kvstore_t) (s : State W) :
    Nat × mtb_kvstore_t × State W :=
  if P.rtosAware then
    let r := X.cy_rtos_get_mutex obj.mtb_kvstore_mutex P.MTB_KVSTORE_MUTEX_TIMEOUT_MS s.world
    (r.1, { obj with mtb_kvstore_mutex := r.2.1 },
      { s with world := r.2.2,
               trace := s.trace ++
                 [Event.get_mutex obj.mtb_kvstore_mutex P.MTB_KVSTORE_MUTEX_TIMEOUT_MS r.1] })
  else
    (P.CY_RSLT_SUCCESS, obj, s)

def _mtb_kvstore_lock_wait_forever (P : Config) (X : Env W) (obj : mtb_kvstore_t)
    (s : State W) : mtb_kvstore_t × State W :=
  if P.rtosAware then
    let r := X.cy_rtos_get_mutex obj.mtb_kvstore_mutex P.CY_RTOS_NEVER_TIMEOUT s.world
    ({ obj with mtb_kvstore_mutex := r.2.1 },
      CY_ASSERT (r.1 == P.CY_RSLT_SUCCESS)
        { s with world := r.2.2,
                 trace := s.trace ++
                   [Event.get_mutex obj.mtb_kvstore_mutex P.CY_RTOS_NEVER_TIMEOUT r.1] })
  else
    (obj, s)

def _mtb_kvstore_unlock (P : Config) (X : Env W) (obj : mtb_kvstore_t) (s : State W) :
    mtb_kvstore_t × State W :=
  if P.rtosAware then
    let r := X.cy_rtos_set_mutex obj.mtb_kvstore_mutex s.world
    ({ obj with mtb_kvstore_mutex := r.2.1 },
      CY_ASSERT (r.1 == P.CY_RSLT_SUCCESS)
        { s with world := r.2.2,
                 trace := s.trace ++ [Event.set_mutex obj.mtb_kvstore_mutex r.1] })
  else
    (obj, s)

def _mtb_kvstore_is_valid_key (key : Nat) : Bool :=
  if key > 0 && key ≤ MTB_KVSTORE_MAX_KEY_VAL then true else false

def _mtb_kvstore_convert_result (P : Config) (result : Nat) (s : State W) : Nat × State W :=
  if result = P.VS_RET_OK then (P.CY_RSLT_SUCCESS, s)
  else if result = P.VS_RET_FAIL_OVERWRITE then (MTB_KVSTORE_OVERWRITE_ERROR P, s)
  else if result = P.VS_RET_FAIL_MEMACESS then (MTB_KVSTORE_MEM_ACCESS_ERROR P, s)
  else if result = P.VS_RET_FAIL_INSUFFICIENT_STORAGE then (MTB_KVSTORE_STORAGE_FULL_ERROR P, s)
  else if result = P.VS_RET_FAIL_RECORD_NOT_FOUND then (MTB_KVSTORE_ITEM_NOT_FOUND_ERROR P, s)
  else (MTB_KVSTORE_UNKNOWN_ERROR P, CY_ASSERT false s)

/-! ## Public API -/

def mtb_kvstore_init (P : Config) (X : Env W) (obj : Option mtb_kvstore_t) (s : State W) :
    Ret W :=
  match obj with
  | none => ⟨MTB_KVSTORE_BAD_PARAM_ERROR P, none, s⟩
  | some _ =>
    -- memset(obj, 0, sizeof(mtb_kvstore_t))
    let i := _mtb_kvstore_initlock P X ⟨0, 0⟩ s
    ⟨i.1, some i.2.1, i.2.2⟩

def mtb_kvstore_write_numeric_key (P : Config) (X : Env W) (obj : Option mtb_kvstore_t)
    (key : Nat) (data : Option (List Nat)) (size : Nat) (overwrite : Bool) (s : State W) :
    Ret W :=
  match obj, _mtb_kvstore_is_valid_key key, data with
  | some o, true, some d =>
    let l := _mtb_kvstore_lock P X o s
    if l.1 = P.CY_RSLT_SUCCESS then
      let v := X.config_VS_write key d size overwrite l.2.2.world
      -- uint8_t vs_result
      let vs_result := v.1 % 256
      let c := _mtb_kvstore_convert_result P vs_result
        { l.2.2 with world := v.2,
                     trace := l.2.2.trace ++ [Event.VS_write key d size overwrite v.1] }
      let u := _mtb_kvstore_unlock P X l.2.1 c.2
      ⟨c.1, some u.1, u.2⟩
    else
      ⟨l.1, some l.2.1, l.2.2⟩
  | _, _, _ => ⟨MTB_KVSTORE_BAD_PARAM_ERROR P, obj, s⟩

def mtb_kvstore_read_numeric_key (P : Config) (X : Env W) (obj : Option mtb_kvstore_t)
    (key : Nat) (data : Option (List Nat)) (size : Option Nat) (s : State W) : ReadRet W :=
  match obj, _mtb_kvstore_is_valid_key key with
  | some o, true =>
    match data, size with
    | some _, none => ⟨MTB_KVSTORE_BAD_PARAM_ERROR P, obj, data, size, s⟩
    | some d, some n =>
      if n = 0 then ⟨MTB_KVSTORE_BAD_PARAM_ERROR P, obj, data, size, s⟩
      else
        let l := _mtb_kvstore_lock P X o s
        if l.1 = P.CY_RSLT_SUCCESS then
          let v := X.config_VS_read key d n l.2.2.world
          let vs_result := v.1 % 256
          let c := _mtb_kvstore_convert_result P vs_result
            { l.2.2 with world := v.2.2.2,
                         trace := l.2.2.trace ++ [Event.VS_read key d n v.1] }
          let u := _mtb_kvstore_unlock P X l.2.1 c.2
          ⟨c.1, some u.1, some v.2.1, some v.2.2.1, u.2⟩
        else
          ⟨l.1, some l.2.1, data, size, l.2.2⟩
    | none, some n =>
      -- size of the value: config_VS_value_size(key, size)
      let v := X.config_VS_value_size key s.world
      let vs_result := v.1 % 256
      let c := _mtb_kvstore_convert_result P vs_result
        { s with world := v.2.2, trace := s.trace ++ [Event.VS_value_size key v.1] }
      ⟨c.1, obj, none, some (v.2.1.getD n), c.2⟩
    | none, none =>
      -- existence of the key: config_VS_value_size(key, &read_size)
      let v := X.config_VS_value_size key s.world
      let vs_result := v.1 % 256
      let c := _mtb_kvstore_convert_result P vs_result
        { s with world := v.2.2, trace := s.trace ++ [Event.VS_value_size key v.1] }
      ⟨c.1, obj, none, none, c.2⟩
  | _, _ => ⟨MTB_KVSTORE_BAD_PARAM_ERROR P, obj, data, size, s⟩

def mtb_kvstore_delete_numeric_key (P : Config) (X : Env W) (obj : Option mtb_kvstore_t)
    (key : Nat) (s : State W) : Ret W :=
  match obj, _mtb_kvstore_is_valid_key key with
  | some o, true =>
    let l := _mtb_kvstore_lock P X o s
    if l.1 = P.CY_RSLT_SUCCESS then
      let v := X.config_VS_delete key l.2.2.world
      let vs_result := v.1 % 256
      let c := _mtb_kvstore_convert_result P vs_result
        { l.2.2 with world := v.2, trace := l.2.2.trace ++ [Event.VS_delete key v.1] }
      let u := _mtb_kvstore_unlock P X l.2.1 c.2
      ⟨c.1, some u.1, u.2⟩
    else
      ⟨l.1, some l.2.1, l.2.2⟩
  | _, _ => ⟨MTB_KVSTORE_BAD_PARAM_ERROR P, obj, s⟩

def mtb_kvstore_reset (P : Config) (X : Env W) (obj : Option mtb_kvstore_t) (s : State W) :
    Ret W :=
  match obj with
  | none => ⟨MTB_KVSTORE_BAD_PARAM_ERROR P, none, s⟩
  | some o =>
    let l := _mtb_kvstore_lock P X o s
    if l.1 = P.CY_RSLT_SUCCESS then
      let v := X.config_VS_erase l.2.2.world
      let vs_result := v.1 % 256
      let c := _mtb_kvstore_convert_result P vs_result
        { l.2.2 with world := v.2, trace := l.2.2.trace ++ [Event.VS_erase v.1] }
      let u := _mtb_kvstore_unlock P X l.2.1 c.2
      ⟨c.1, some u.1, u.2⟩
    else
      ⟨l.1, some l.2.1, l.2.2⟩

/-- The function `mtb_kvstore_deinit` returns nothing and does not test `obj`: the result is
the contents of `*obj` and the state when the function returns, and `none` when a null
handle is dereferenced (RTOS-aware builds reach `obj->mtb_kvstore_mutex`; the other builds
never use `obj`). -/
def mtb_kvstore_deinit (P : Config) (X : Env W) (obj : Option mtb_kvstore_t) (s : State W) :
    Option (Option mtb_kvstore_t × State W) :=
  match obj with
  | none => if P.rtosAware then none else some (none, s)
  | some o =>
    let l := _mtb_kvstore_lock_wait_forever P X o s
    let local_mutex := l.1.mtb_kvstore_mutex
    let u := _mtb_kvstore_unlock P X l.1 l.2
    if P.rtosAware then
      let r := X.cy_rtos_deinit_mutex local_mutex u.2.world
      some (some u.1,
        CY_ASSERT (r.1 == P.CY_RSLT_SUCCESS)
          { u.2 with world := r.2.2,
                     trace := u.2.trace ++ [Event.deinit_mutex local_mutex r.1] })
    else
      some (some u.1, u.2)

/-! ## The API as one family of calls -/

/-- A call of one of the six functions of `mtb_kvstore_cat5.h`, with the arguments that
follow the handle. -/
inductive Call where
  | init
  | write (key : Nat) (data : Option (List Nat)) (size : Nat) (overwrite : Bool)
  | read (key : Nat) (data : Option (List Nat)) (size : Option Nat)
  | delete (key : Nat)
  | reset
  | deinit

/-- The `cy_rslt_t` a call hands back to its caller; `none` for `mtb_kvstore_deinit`, which
is declared `void`. -/
def Call.status (P : Config) (X : Env W) (obj : Option mtb_kvstore_t) (s : State W) :
    Call → Option Nat
  | Call.init => some (mtb_kvstore_init P X obj s).result
  | Call.write key data size overwrite =>
    some (mtb_kvstore_write_numeric_key P X obj key data size overwrite s).result
  | Call.read key data size => some (mtb_kvstore_read_numeric_key P X obj key data size s).result
  | Call.delete key => some (mtb_kvstore_delete_numeric_key P X obj key s).result
  | Call.reset => some (mtb_kvstore_reset P X obj s).result
  | Call.deinit => none

/-! ## The translation table of the specification -/

/-- Result-code translation table of the specification, one pair (backend code, adapter
error) per row, in the order of the rows. -/
def translationTable (P : Config) : List (Nat × Nat) :=
  [ (P.VS_RET_OK, P.CY_RSLT_SUCCESS),
    (P.VS_RET_FAIL_OVERWRITE, MTB_KVSTORE_OVERWRITE_ERROR P),
    (P.VS_RET_FAIL_MEMACESS, MTB_KVSTORE_MEM_ACCESS_ERROR P),
    (P.VS_RET_FAIL_INSUFFICIENT_STORAGE, MTB_KVSTORE_STORAGE_FULL_ERROR P),
    (P.VS_RET_FAIL_RECORD_NOT_FOUND, MTB_KVSTORE_ITEM_NOT_FOUND_ERROR P) ]

/-- The adapter error the table gives for a backend status: the row of that status, and
`MTB_KVSTORE_UNKNOWN_ERROR` for a status without a row. -/
def tableTranslate (P : Config) (status : Nat) : Nat :=
  ((translationTable P).lookup status).getD (MTB_KVSTORE_UNKNOWN_ERROR P)

/-- The five status codes are pairwise different, as the labels of one C `switch` are. -/
def Config.vsCodesDistinct (P : Config) : Prop :=
  [P.VS_RET_OK, P.VS_RET_FAIL_OVERWRITE, P.VS_RET_FAIL_MEMACESS,
   P.VS_RET_FAIL_INSUFFICIENT_STORAGE, P.VS_RET_FAIL_RECORD_NOT_FOUND].Nodup

/-- The result encoding of `cy_result.h` keeps success and the thirteen error codes of
`mtb_kvstore_cat5.h` apart. -/
def Config.resultCodesDistinct (P : Config) : Prop :=
  (∀ c < 13, kvstoreError P c ≠ P.CY_RSLT_SUCCESS)
  ∧ ∀ c1 < 13, ∀ c2 < 13, kvstoreError P c1 = kvstoreError P c2 → c1 = c2

instance (P : Config) : Decidable P.vsCodesDistinct := by
  unfold Config.vsCodesDistinct
  infer_instance

instance (P : Config) : Decidable P.resultCodesDistinct := by
  unfold Config.resultCodesDistinct
  infer_instance

/-! ## Lock discipline -/

/-- A call into the mutex API of the RTOS. -/
def Event.isMutex : Event → Bool
  | Event.init_mutex _ _ => true
  | Event.get_mutex _ _ _ => true
  | Event.set_mutex _ _ => true
  | Event.deinit_mutex _ _ => true
  | _ => false

/-- A call into the value store. -/
def Event.isBackend : Event → Bool
  | Event.VS_write _ _ _ _ _ => true
  | Event.VS_read _ _ _ _ => true
  | Event.VS_value_size _ _ => true
  | Event.VS_delete _ _ => true
  | Event.VS_erase _ => true
  | _ => false

/-- Whether the caller holds the handle's mutex after the calls `es`, having held it or not
before.  The calls see the handle's mutex object by its value: `m` at an acquisition and `m1`
at a release (the object before and after the acquisition).  A `cy_rtos_get_mutex` on `m`
that succeeds takes the mutex, a `cy_rtos_set_mutex` on `m1` that succeeds gives it back,
every other call leaves it. -/
def heldAfter (P : Config) (m m1 : Nat) : Bool → List Event → Bool
  | held, [] => held
  | held, Event.get_mutex a _ r :: es =>
    heldAfter P m m1 (if a = m ∧ r = P.CY_RSLT_SUCCESS then true else held) es
  | held, Event.set_mutex b r :: es =>
    heldAfter P m m1 (if b = m1 ∧ r = P.CY_RSLT_SUCCESS then false else held) es
  | held, _ :: es => heldAfter P m m1 held es

/-- Whether some `cy_rtos_get_mutex` on the handle's mutex among the calls `es` is made while
the caller already holds it. -/
def acquiresWhileHeld (P : Config) (m m1 : Nat) : Bool → List Event → Bool
  | _, [] => false
  | held, Event.get_mutex a t r :: es =>
    (held && a == m)
      || acquiresWhileHeld P m m1 (heldAfter P m m1 held [Event.get_mutex a t r]) es
  | held, e :: es => acquiresWhileHeld P m m1 (heldAfter P m m1 held [e]) es

/-- Whether every `cy_rtos_set_mutex` among the calls `es` returned `CY_RSLT_SUCCESS`. -/
def releasesSucceed (P : Config) : List Event → Bool
  | [] => true
  | Event.set_mutex _ r :: es => r == P.CY_RSLT_SUCCESS && releasesSucceed P es
  | _ :: es => releasesSucceed P es

/-- The calls of a locked path: a bounded acquisition that succeeds, one backend call, the
release. -/
def lockedCalls (P : Config) : List Event → Bool
  | [Event.get_mutex _ t r, c, Event.set_mutex _ _] =>
    t == P.MTB_KVSTORE_MUTEX_TIMEOUT_MS && r == P.CY_RSLT_SUCCESS && c.isBackend
  | _ => false

/-- The calls of a path that takes the lock of the handle whose mutex object is `m` before
the acquisition and `m1` after it: the bounded acquisition on `m`, which succeeds, one
backend call, the release on `m1`. -/
def lockedCallsOn (P : Config) (m m1 : Nat) : List Event → Bool
  | [Event.get_mutex a t r, c, Event.set_mutex b _] =>
    a == m && t == P.MTB_KVSTORE_MUTEX_TIMEOUT_MS && r == P.CY_RSLT_SUCCESS && c.isBackend
      && b == m1
  | _ => false

/-- The calls of a path whose bounded acquisition on the handle's mutex object `m` fails:
that one attempt, nothing else. -/
def failedAcquisitionOn (P : Config) (m : Nat) : List Event → Bool
  | [Event.get_mutex a t r] =>
    a == m && t == P.MTB_KVSTORE_MUTEX_TIMEOUT_MS && r != P.CY_RSLT_SUCCESS
  | _ => false

/-- No call into the mutex API. -/
def mutexUntouched (es : List Event) : Bool := es.all (fun e => !e.isMutex)

/-- The calls an operation added to the trace `before`, leaving the trace `after`. -/
def newCalls (before after : List Event) : List Event := after.drop before.length

/-- Lock discipline of one operation on the handle whose mutex object is `m` before an
acquisition and `m1` after it, the operation having left the trace `after` from the trace
`before`, and `reachesLock` telling whether its arguments pass validation on a path that
takes the lock: the operation only added calls; with the mutex not held before, it is never
asked for while held, and it is not held after unless a release failed; in an RTOS-aware
build a path that takes the lock makes either the three calls of a locked path, on this
handle's mutex, or the one failed acquisition; every other path makes no call into the mutex
API. -/
def disciplined (P : Config) (m m1 : Nat) (reachesLock : Bool) (before after : List Event) :
    Prop :=
  after = before ++ newCalls before after
  ∧ acquiresWhileHeld P m m1 false (newCalls before after) = false
  ∧ (releasesSucceed P (newCalls before after) = true →
      heldAfter P m m1 false (newCalls before after) = false)
  ∧ (if P.rtosAware && reachesLock then
      lockedCallsOn P m m1 (newCalls before after) = true
        ∨ failedAcquisitionOn P m (newCalls before after) = true
    else mutexUntouched (newCalls before after) = true)

instance (P : Config) (m m1 : Nat) (reachesLock : Bool) (before after : List Event) :
    Decidable (disciplined P m m1 reachesLock before after) := by
  unfold disciplined
  infer_instance

/-! ## Teardown -/

/-- The first RTOS call of `mtb_kvstore_deinit` on the handle `o` in state `s`: the
acquisition with unbounded wait; its status, the mutex object after it, the world after
it. -/
def deinitAcquire (P : Config) (X : Env W) (o : mtb_kvstore_t) (s : State W) : Nat × Nat × W :=
  X.cy_rtos_get_mutex o.mtb_kvstore_mutex P.CY_RTOS_NEVER_TIMEOUT s.world

/-- The second RTOS call of `mtb_kvstore_deinit`: the release of the handle's mutex. -/
def deinitRelease (P : Config) (X : Env W) (o : mtb_kvstore_t) (s : State W) : Nat × Nat × W :=
  X.cy_rtos_set_mutex (deinitAcquire P X o s).2.1 (deinitAcquire P X o s).2.2

/-- The third RTOS call of `mtb_kvstore_deinit`: the destruction of `local_mutex`, the copy
of the handle's mutex object taken between acquisition and release. -/
def deinitDestroy (P : Config) (X : Env W) (o : mtb_kvstore_t) (s : State W) : Nat × Nat × W :=
  X.cy_rtos_deinit_mutex (deinitAcquire P X o s).2.1 (deinitRelease P X o s).2.2

/-- The three calls above as trace entries, in the order they are made. -/
def deinitCalls (P : Config) (X : Env W) (o : mtb_kvstore_t) (s : State W) : List Event :=
  [ Event.get_mutex o.mtb_kvstore_mutex P.CY_RTOS_NEVER_TIMEOUT (deinitAcquire P X o s).1,
    Event.set_mutex (deinitAcquire P X o s).2.1 (deinitRelease P X o s).1,
    Event.deinit_mutex (deinitAcquire P X o s).2.1 (deinitDestroy P X o s).1 ]

/-- What a status adds to the count of failed assertions when it goes through
`CY_ASSERT(result == CY_RSLT_SUCCESS)`. -/
def assertCount (P : Config) (result : Nat) : Nat :=
  if result = P.CY_RSLT_SUCCESS then 0 else 1

/-- Whether every `cy_rtos_deinit_mutex` among the calls `es` comes after a
`cy_rtos_get_mutex` that succeeded, `acquired` telling whether one succeeded before `es`. -/
def destroyAfterAcquire (P : Config) : Bool → List Event → Bool
  | _, [] => true
  | acquired, Event.get_mutex _ _ r :: es =>
    destroyAfterAcquire P (acquired || r == P.CY_RSLT_SUCCESS) es
  | acquired, Event.deinit_mutex _ _ :: es => acquired && destroyAfterAcquire P acquired es
  | acquired, _ :: es => destroyAfterAcquire P acquired es

/-! ## A sample build and a reference environment -/

/-- Sample `CY_RSLT_CREATE`: code in bits 0-15, type in bits 16-17, module in bits 18-31. -/
def sampleCreate (type module code : Nat) : Nat :=
  ((module <<< 18) &&& 0xFFFC0000) ||| ((code <<< 0) &&& 0xFFFF) ||| ((type <<< 16) &&& 0x30000)

/-- Sample build: success is 0, the error type is 2, the five status codes are 0 to 4. -/
def sampleConfig (rtosAware : Bool) : Config where
  rtosAware := rtosAware
  CY_RSLT_SUCCESS := 0
  CY_RSLT_TYPE_ERROR := 2
  CY_RSLT_MODULE_MIDDLEWARE_KVSTORE_CAT5 := 0x25F
  CY_RSLT_CREATE := sampleCreate
  MTB_KVSTORE_MUTEX_TIMEOUT_MS := 50
  CY_RTOS_NEVER_TIMEOUT := 0xFFFFFFFF
  VS_RET_OK := 0
  VS_RET_FAIL_OVERWRITE := 1
  VS_RET_FAIL_MEMACESS := 2
  VS_RET_FAIL_INSUFFICIENT_STORAGE := 3
  VS_RET_FAIL_RECORD_NOT_FOUND := 4

/-- World of the reference environment: the stored values, newest first, at most one per
key, and whether somebody holds the mutex. -/
structure RefWorld where
  store : List (Nat × List Nat)
  mutex_held : Bool
deriving DecidableEq, Repr

/-- The status the reference mutex gives when it cannot be taken. -/
def refTimeout (P : Config) : Nat := P.CY_RSLT_SUCCESS + 1

/-- Modelled from the spec: the RTOS mutex and the value store are outside the repository;
this is the correctly behaving stub the round-trip property assumes: a mutex that is free or
held, and a value store that is a map from keys to byte strings.  A write keeps the first
`size` bytes, and is refused when the key is present and overwriting is not allowed; a read
of a present key whose value fits in the buffer copies the value to the front of the buffer
and stores its length to `*size`. -/
def refEnv (P : Config) : Env RefWorld where
  cy_rtos_init_mutex := fun _ w => (P.CY_RSLT_SUCCESS, 1, { w with mutex_held := false })
  cy_rtos_get_mutex := fun m _ w =>
    if w.mutex_held then (refTimeout P, m, w)
    else (P.CY_RSLT_SUCCESS, m, { w with mutex_held := true })
  cy_rtos_set_mutex := fun m w => (P.CY_RSLT_SUCCESS, m, { w with mutex_held := false })
  cy_rtos_deinit_mutex := fun m w => (P.CY_RSLT_SUCCESS, m, w)
  config_VS_write := fun key data size overwrite w =>
    if !overwrite && (w.store.lookup key).isSome then (P.VS_RET_FAIL_OVERWRITE, w)
    else (P.VS_RET_OK,
      { w with store := (key, data.take size) :: w.store.filter (fun e => e.1 != key) })
  config_VS_read := fun key data size w =>
    match w.store.lookup key with
    | none => (P.VS_RET_FAIL_RECORD_NOT_FOUND, data, size, w)
    | some v =>
      if size < v.length then (P.VS_RET_FAIL_MEMACESS, data, size, w)
      else (P.VS_RET_OK, v ++ data.drop v.length, v.length, w)
  config_VS_value_size := fun key w =>
    match w.store.lookup key with
    | none => (P.VS_RET_FAIL_RECORD_NOT_FOUND, none, w)
    | some v => (P.VS_RET_OK, some v.length, w)
  config_VS_delete := fun key w =>
    match w.store.lookup key with
    | none => (P.VS_RET_FAIL_RECORD_NOT_FOUND, w)
    | some _ => (P.VS_RET_OK, { w with store := w.store.filter (fun e => e.1 != key) })
  config_VS_erase := fun w => (P.VS_RET_OK, { w with store := [] })

/-- An empty store with a free mutex, no call made yet. -/
def refStart : State RefWorld := ⟨⟨[], false⟩, [], 0⟩

/-- As `refStart`, with the mutex held by somebody else. -/
def refBusy : State RefWorld := ⟨⟨[], true⟩, [], 0⟩

/-- As `refEnv`, for a caller the RTOS does not let take a mutex: `cy_rtos_get_mutex` and
`cy_rtos_set_mutex` report an error and change nothing. -/
def refusingEnv (P : Config) : Env RefWorld :=
  { refEnv P with
    cy_rtos_get_mutex := fun m _ w => (refTimeout P, m, w)
    cy_rtos_set_mutex := fun m w => (refTimeout P, m, w) }

/-- As `refEnv`, with a value store whose delete changes nothing and reports the status 256,
one more than a `uint8_t` holds. -/
def wideStatusEnv (P : Config) : Env RefWorld :=
  { refEnv P with config_VS_delete := fun _ w => (256, w) }

/-! ## Theorems -/

/-- C1: a key that is 0 or above 0x3FFE makes write, read and delete return
`MTB_KVSTORE_BAD_PARAM_ERROR` and leave the handle, the caller's buffers and the whole state
(world, calls made, assertions) as they were, for every handle, data pointer, size and
overwrite flag; and the key check accepts exactly the keys from 1 to 0x3FFE. -/
theorem invalid_key_is_bad_param (P : Config) (X : Env W) (obj : Option mtb_kvstore_t)
    (key : Nat) (data : Option (List Nat)) (size : Nat) (overwrite : Bool)
    (rsize : Option Nat) (s : State W) (hk : key = 0 ∨ key > 0x3FFE) :
    mtb_kvstore_write_numeric_key P X obj key data size overwrite s
        = ⟨MTB_KVSTORE_BAD_PARAM_ERROR P, obj, s⟩
    ∧ mtb_kvstore_read_numeric_key P X obj key data rsize s
        = ⟨MTB_KVSTORE_BAD_PARAM_ERROR P, obj, data, rsize, s⟩
    ∧ mtb_kvstore_delete_numeric_key P X obj key s
        = ⟨MTB_KVSTORE_BAD_PARAM_ERROR P, obj, s⟩
    ∧ ∀ k : Nat, _mtb_kvstore_is_valid_key k = true ↔ (1 ≤ k ∧ k ≤ 0x3FFE) := by
  have hv : _mtb_kvstore_is_valid_key key = false := by
    unfold _mtb_kvstore_is_valid_key MTB_KVSTORE_MAX_KEY_VAL
    rcases hk with h | h
    · subst h; rfl
    · have : ¬ key ≤ 16382 := by omega
      simp [this]
  refine ⟨?_, ?_, ?_, ?_⟩
  · cases obj <;> simp [mtb_kvstore_write_numeric_key, hv]
  · cases obj <;> simp [mtb_kvstore_read_numeric_key, hv]
  · cases obj <;> simp [mtb_kvstore_delete_numeric_key, hv]
  · intro k
    unfold _mtb_kvstore_is_valid_key MTB_KVSTORE_MAX_KEY_VAL
    simp
    omega

/-- Witness of C1 at key 0x3FFF on the reference environment. -/
theorem invalid_key_is_bad_param_witness :
    ((0x3FFF : Nat) = 0 ∨ (0x3FFF : Nat) > 0x3FFE)
    ∧ mtb_kvstore_write_numeric_key (sampleConfig true) (refEnv (sampleConfig true))
        (some ⟨0, 1⟩) 0x3FFF (some [7]) 1 true refStart
        = ⟨MTB_KVSTORE_BAD_PARAM_ERROR (sampleConfig true), some ⟨0, 1⟩, refStart⟩ :=
  ⟨by decide,
   (invalid_key_is_bad_param (sampleConfig true) (refEnv (sampleConfig true)) (some ⟨0, 1⟩)
      0x3FFF (some [7]) 1 true (some 1) refStart (by decide)).1⟩

/-! ### Shared lemmas on the translation -/

lemma tableTranslate_eq (P : Config) (v : Nat) :
    tableTranslate P v =
      if v = P.VS_RET_OK then P.CY_RSLT_SUCCESS
      else if v = P.VS_RET_FAIL_OVERWRITE then MTB_KVSTORE_OVERWRITE_ERROR P
      else if v = P.VS_RET_FAIL_MEMACESS then MTB_KVSTORE_MEM_ACCESS_ERROR P
      else if v = P.VS_RET_FAIL_INSUFFICIENT_STORAGE then MTB_KVSTORE_STORAGE_FULL_ERROR P
      else if v = P.VS_RET_FAIL_RECORD_NOT_FOUND then MTB_KVSTORE_ITEM_NOT_FOUND_ERROR P
      else MTB_KVSTORE_UNKNOWN_ERROR P := by
  unfold tableTranslate translationTable
  by_cases h1 : v = P.VS_RET_OK
  · have e1 : (v == P.VS_RET_OK) = true := by simpa using h1
    simp only [List.lookup, e1, if_pos h1, Option.getD]
  have e1 : (v == P.VS_RET_OK) = false := by simpa using h1
  by_cases h2 : v = P.VS_RET_FAIL_OVERWRITE
  · have e2 : (v == P.VS_RET_FAIL_OVERWRITE) = true := by simpa using h2
    simp only [List.lookup, e1, e2, if_neg h1, if_pos h2, Option.getD]
  have e2 : (v == P.VS_RET_FAIL_OVERWRITE) = false := by simpa using h2
  by_cases h3 : v = P.VS_RET_FAIL_MEMACESS
  · have e3 : (v == P.VS_RET_FAIL_MEMACESS) = true := by simpa using h3
    simp only [List.lookup, e1, e2, e3, if_neg h1, if_neg h2, if_pos h3, Option.getD]
  have e3 : (v == P.VS_RET_FAIL_MEMACESS) = false := by simpa using h3
  by_cases h4 : v = P.VS_RET_FAIL_INSUFFICIENT_STORAGE
  · have e4 : (v == P.VS_RET_FAIL_INSUFFICIENT_STORAGE) = true := by simpa using h4
    simp only [List.lookup, e1, e2, e3, e4, if_neg h1, if_neg h2, if_neg h3, if_pos h4,
      Option.getD]
  have e4 : (v == P.VS_RET_FAIL_INSUFFICIENT_STORAGE) = false := by simpa using h4
  by_cases h5 : v = P.VS_RET_FAIL_RECORD_NOT_FOUND
  · have e5 : (v == P.VS_RET_FAIL_RECORD_NOT_FOUND) = true := by simpa using h5
    simp only [List.lookup, e1, e2, e3, e4, e5, if_neg h1, if_neg h2, if_neg h3, if_neg h4,
      if_pos h5, Option.getD]
  have e5 : (v == P.VS_RET_FAIL_RECORD_NOT_FOUND) = false := by simpa using h5
  simp only [List.lookup, e1, e2, e3, e4, e5, if_neg h1, if_neg h2, if_neg h3, if_neg h4,
    if_neg h5, Option.getD]

lemma convert_result_fst (P : Config) (v : Nat) (s : State W) :
    (_mtb_kvstore_convert_result P v s).1 = tableTranslate P v := by
  rw [tableTranslate_eq]
  unfold _mtb_kvstore_convert_result
  split_ifs <;> rfl

lemma convert_result_trace (P : Config) (v : Nat) (s : State W) :
    (_mtb_kvstore_convert_result P v s).2.trace = s.trace := by
  unfold _mtb_kvstore_convert_result CY_ASSERT
  split_ifs <;> simp

lemma convert_result_world (P : Config) (v : Nat) (s : State W) :
    (_mtb_kvstore_convert_result P v s).2.world = s.world := by
  unfold _mtb_kvstore_convert_result CY_ASSERT
  split_ifs <;> simp

lemma write_locked (P : Config) (X : Env W) (o : mtb_kvstore_t) (key : Nat) (d : List Nat)
    (size : Nat) (overwrite : Bool) (s : State W)
    (hk : _mtb_kvstore_is_valid_key key = true)
    (hl : (_mtb_kvstore_lock P X o s).1 = P.CY_RSLT_SUCCESS) :
    (mtb_kvstore_write_numeric_key P X (some o) key (some d) size overwrite s).result
      = tableTranslate P
          ((X.config_VS_write key d size overwrite (_mtb_kvstore_lock P X o s).2.2.world).1
            % 256) := by
  simp [mtb_kvstore_write_numeric_key, hk, hl, convert_result_fst]

lemma read_locked (P : Config) (X : Env W) (o : mtb_kvstore_t) (key : Nat) (d : List Nat)
    (cap : Nat) (s : State W)
    (hk : _mtb_kvstore_is_valid_key key = true) (hcap : cap ≠ 0)
    (hl : (_mtb_kvstore_lock P X o s).1 = P.CY_RSLT_SUCCESS) :
    (mtb_kvstore_read_numeric_key P X (some o) key (some d) (some cap) s).result
      = tableTranslate P
          ((X.config_VS_read key d cap (_mtb_kvstore_lock P X o s).2.2.world).1 % 256) := by
  simp [mtb_kvstore_read_numeric_key, hk, hl, hcap, convert_result_fst]

lemma read_unlocked (P : Config) (X : Env W) (o : mtb_kvstore_t) (key : Nat)
    (size : Option Nat) (s : State W) (hk : _mtb_kvstore_is_valid_key key = true) :
    (mtb_kvstore_read_numeric_key P X (some o) key none size s).result
      = tableTranslate P ((X.config_VS_value_size key s.world).1 % 256) := by
  cases size <;> simp [mtb_kvstore_read_numeric_key, hk, convert_result_fst]

lemma delete_locked (P : Config) (X : Env W) (o : mtb_kvstore_t) (key : Nat) (s : State W)
    (hk : _mtb_kvstore_is_valid_key key = true)
    (hl : (_mtb_kvstore_lock P X o s).1 = P.CY_RSLT_SUCCESS) :
    (mtb_kvstore_delete_numeric_key P X (some o) key s).result
      = tableTranslate P
          ((X.config_VS_delete key (_mtb_kvstore_lock P X o s).2.2.world).1 % 256) := by
  simp [mtb_kvstore_delete_numeric_key, hk, hl, convert_result_fst]

lemma reset_locked (P : Config) (X : Env W) (o : mtb_kvstore_t) (s : State W)
    (hl : (_mtb_kvstore_lock P X o s).1 = P.CY_RSLT_SUCCESS) :
    (mtb_kvstore_reset P X (some o) s).result
      = tableTranslate P
          ((X.config_VS_erase (_mtb_kvstore_lock P X o s).2.2.world).1 % 256) := by
  simp [mtb_kvstore_reset, hl, convert_result_fst]

/-- C3 (as amended): with a null handle, init, write, read, delete and reset return
`MTB_KVSTORE_BAD_PARAM_ERROR` for all values of their other arguments and leave the caller's
buffers and the whole state (world, calls made, assertions) as they were;
`mtb_kvstore_deinit` is `void` and hands back no status. -/
theorem null_handle_is_bad_param (P : Config) (X : Env W) (key : Nat)
    (data : Option (List Nat)) (size : Nat) (overwrite : Bool) (rsize : Option Nat)
    (s : State W) :
    mtb_kvstore_init P X none s = ⟨MTB_KVSTORE_BAD_PARAM_ERROR P, none, s⟩
    ∧ mtb_kvstore_write_numeric_key P X none key data size overwrite s
        = ⟨MTB_KVSTORE_BAD_PARAM_ERROR P, none, s⟩
    ∧ mtb_kvstore_read_numeric_key P X none key data rsize s
        = ⟨MTB_KVSTORE_BAD_PARAM_ERROR P, none, data, rsize, s⟩
    ∧ mtb_kvstore_delete_numeric_key P X none key s = ⟨MTB_KVSTORE_BAD_PARAM_ERROR P, none, s⟩
    ∧ mtb_kvstore_reset P X none s = ⟨MTB_KVSTORE_BAD_PARAM_ERROR P, none, s⟩
    ∧ Call.status P X none s Call.deinit = none := by
  refine ⟨rfl, ?_, ?_, ?_, rfl, rfl⟩
  · simp [mtb_kvstore_write_numeric_key]
  · simp [mtb_kvstore_read_numeric_key]
  · simp [mtb_kvstore_delete_numeric_key]

/-- C3 (counterexample): `mtb_kvstore_deinit` with a null handle does not fail with
`MTB_KVSTORE_BAD_PARAM_ERROR`: it hands back no status at all; in a build without RTOS
support it returns normally, and in an RTOS-aware build it goes on to use the null handle. -/
theorem deinit_null_handle_not_bad_param :
    Call.status (sampleConfig false) (refEnv (sampleConfig false)) none refStart Call.deinit
        ≠ some (MTB_KVSTORE_BAD_PARAM_ERROR (sampleConfig false))
    ∧ mtb_kvstore_deinit (sampleConfig false) (refEnv (sampleConfig false)) none refStart
        = some (none, refStart)
    ∧ Call.status (sampleConfig true) (refEnv (sampleConfig true)) none refStart Call.deinit
        ≠ some (MTB_KVSTORE_BAD_PARAM_ERROR (sampleConfig true))
    ∧ mtb_kvstore_deinit (sampleConfig true) (refEnv (sampleConfig true)) none refStart
        = none := by
  refine ⟨?_, rfl, ?_, rfl⟩ <;> simp [Call.status]

/-- C4: for a non-null handle and a valid key, a read with `data == NULL` makes exactly one
call, `config_VS_value_size(key)`, and no mutex call; it returns the translation of that
call's status, the same with `size` null or not; the handle is left as it was and no data
buffer is written; with `size` null no size is written either, and with `size` not null
`*size` is what the backend stored to it (the reported length). -/
theorem unlocked_read_is_size_query (P : Config) (X : Env W) (o : mtb_kvstore_t) (key : Nat)
    (n : Nat) (s : State W) (hk : _mtb_kvstore_is_valid_key key = true) :
    (∀ size : Option Nat,
      (mtb_kvstore_read_numeric_key P X (some o) key none size s).st.trace
          = s.trace ++ [Event.VS_value_size key (X.config_VS_value_size key s.world).1]
      ∧ (mtb_kvstore_read_numeric_key P X (some o) key none size s).st.world
          = (X.config_VS_value_size key s.world).2.2
      ∧ (mtb_kvstore_read_numeric_key P X (some o) key none size s).result
          = tableTranslate P ((X.config_VS_value_size key s.world).1 % 256)
      ∧ (mtb_kvstore_read_numeric_key P X (some o) key none size s).obj = some o
      ∧ (mtb_kvstore_read_numeric_key P X (some o) key none size s).data = none)
    ∧ (mtb_kvstore_read_numeric_key P X (some o) key none none s).result
        = (mtb_kvstore_read_numeric_key P X (some o) key none (some n) s).result
    ∧ (mtb_kvstore_read_numeric_key P X (some o) key none none s).size = none
    ∧ (mtb_kvstore_read_numeric_key P X (some o) key none (some n) s).size
        = some ((X.config_VS_value_size key s.world).2.1.getD n)
    ∧ ∀ len : Nat, (X.config_VS_value_size key s.world).2.1 = some len →
        (mtb_kvstore_read_numeric_key P X (some o) key none (some n) s).size = some len := by
  refine ⟨?_, ?_, ?_, ?_, ?_⟩
  · intro size
    cases size <;>
      simp [mtb_kvstore_read_numeric_key, hk, convert_result_fst, convert_result_trace,
        convert_result_world]
  · simp [mtb_kvstore_read_numeric_key, hk]
  · simp [mtb_kvstore_read_numeric_key, hk]
  · simp [mtb_kvstore_read_numeric_key, hk]
  · intro len hlen
    simp [mtb_kvstore_read_numeric_key, hk, hlen]

/-- Witness of C4: the size of a three-byte value stored under key 5. -/
theorem unlocked_read_is_size_query_witness :
    _mtb_kvstore_is_valid_key 5 = true
    ∧ (mtb_kvstore_read_numeric_key (sampleConfig true) (refEnv (sampleConfig true))
          (some ⟨0, 1⟩) 5 none (some 0) ⟨⟨[(5, [1, 2, 3])], true⟩, [], 0⟩).size = some 3 :=
  ⟨by decide,
   (unlocked_read_is_size_query (sampleConfig true) (refEnv (sampleConfig true)) ⟨0, 1⟩ 5 0
      ⟨⟨[(5, [1, 2, 3])], true⟩, [], 0⟩ (by decide)).2.2.2.2 3 (by decide)⟩

/-- C5 (the code at the failing input): deleting key 1, which the store does not hold, with
the lock taken and the backend reporting record-not-found, returns
`MTB_KVSTORE_ITEM_NOT_FOUND_ERROR`, which is not `CY_RSLT_SUCCESS`. -/
theorem delete_of_missing_key_is_not_success :
    (refEnv (sampleConfig true)).config_VS_delete 1
        (_mtb_kvstore_lock (sampleConfig true) (refEnv (sampleConfig true)) ⟨0, 1⟩
          refStart).2.2.world
      = ((sampleConfig true).VS_RET_FAIL_RECORD_NOT_FOUND, ⟨[], true⟩)
    ∧ (mtb_kvstore_delete_numeric_key (sampleConfig true) (refEnv (sampleConfig true))
          (some ⟨0, 1⟩) 1 refStart).result
        = MTB_KVSTORE_ITEM_NOT_FOUND_ERROR (sampleConfig true)
    ∧ (mtb_kvstore_delete_numeric_key (sampleConfig true) (refEnv (sampleConfig true))
          (some ⟨0, 1⟩) 1 refStart).result
        ≠ (sampleConfig true).CY_RSLT_SUCCESS := by
  refine ⟨by decide, by decide, by decide⟩

/-- C6: in an RTOS-aware build, when the bounded `cy_rtos_get_mutex` of a write, a normal
read, a delete or a reset with valid parameters returns a status `r` other than
`CY_RSLT_SUCCESS`, the operation returns `r` itself; the only call it makes is that
acquisition (no backend call, no release), no assertion fails, and the caller's buffer and
`*size` are left as they were. -/
theorem lock_failure_is_returned (P : Config) (X : Env W) (o : mtb_kvstore_t) (key : Nat)
    (d : List Nat) (size : Nat) (overwrite : Bool) (cap : Nat) (s : State W) (r : Nat)
    (hk : _mtb_kvstore_is_valid_key key = true) (hcap : cap ≠ 0)
    (hrtos : P.rtosAware = true)
    (hg : (X.cy_rtos_get_mutex o.mtb_kvstore_mutex P.MTB_KVSTORE_MUTEX_TIMEOUT_MS
            s.world).1 = r)
    (hr : r ≠ P.CY_RSLT_SUCCESS) :
    (_mtb_kvstore_lock P X o s).2.2.trace
        = s.trace ++ [Event.get_mutex o.mtb_kvstore_mutex P.MTB_KVSTORE_MUTEX_TIMEOUT_MS r]
    ∧ (_mtb_kvstore_lock P X o s).2.2.assert_failures = s.assert_failures
    ∧ mtb_kvstore_write_numeric_key P X (some o) key (some d) size overwrite s
        = ⟨r, some (_mtb_kvstore_lock P X o s).2.1, (_mtb_kvstore_lock P X o s).2.2⟩
    ∧ mtb_kvstore_read_numeric_key P X (some o) key (some d) (some cap) s
        = ⟨r, some (_mtb_kvstore_lock P X o s).2.1, some d, some cap,
            (_mtb_kvstore_lock P X o s).2.2⟩
    ∧ mtb_kvstore_delete_numeric_key P X (some o) key s
        = ⟨r, some (_mtb_kvstore_lock P X o s).2.1, (_mtb_kvstore_lock P X o s).2.2⟩
    ∧ mtb_kvstore_reset P X (some o) s
        = ⟨r, some (_mtb_kvstore_lock P X o s).2.1, (_mtb_kvstore_lock P X o s).2.2⟩ := by
  have hl : (_mtb_kvstore_lock P X o s).1 = r := by
    simp [_mtb_kvstore_lock, hrtos, hg]
  refine ⟨?_, ?_, ?_, ?_, ?_, ?_⟩
  · simp [_mtb_kvstore_lock, hrtos, hg]
  · simp [_mtb_kvstore_lock, hrtos]
  · simp only [mtb_kvstore_write_numeric_key, hk, hl, if_neg hr]
  · simp only [mtb_kvstore_read_numeric_key, hk, if_neg hcap, hl, if_neg hr]
  · simp only [mtb_kvstore_delete_numeric_key, hk, hl, if_neg hr]
  · simp only [mtb_kvstore_reset, hl, if_neg hr]

/-- Witness of C6: a write while somebody else holds the mutex. -/
theorem lock_failure_is_returned_witness :
    _mtb_kvstore_is_valid_key 1 = true ∧ (8 : Nat) ≠ 0
    ∧ (sampleConfig true).rtosAware = true
    ∧ ((refEnv (sampleConfig true)).cy_rtos_get_mutex 1 50 refBusy.world).1 = 1
    ∧ (1 : Nat) ≠ (sampleConfig true).CY_RSLT_SUCCESS
    ∧ mtb_kvstore_write_numeric_key (sampleConfig true) (refEnv (sampleConfig true))
          (some ⟨0, 1⟩) 1 (some [7]) 1 true refBusy
        = ⟨1, some (_mtb_kvstore_lock (sampleConfig true) (refEnv (sampleConfig true)) ⟨0, 1⟩
              refBusy).2.1,
            (_mtb_kvstore_lock (sampleConfig true) (refEnv (sampleConfig true)) ⟨0, 1⟩
              refBusy).2.2⟩ :=
  ⟨by decide, by decide, rfl, by decide, by decide,
   (lock_failure_is_returned (sampleConfig true) (refEnv (sampleConfig true)) ⟨0, 1⟩ 1 [7] 1
      true 8 refBusy 1 (by decide) (by decide) rfl (by decide) (by decide)).2.2.1⟩

/-- C8: a write with `data == NULL` returns `MTB_KVSTORE_BAD_PARAM_ERROR` for every handle,
key, size and overwrite flag, and leaves the handle and the whole state (world, calls made,
assertions) as they were. -/
theorem write_null_data_is_bad_param (P : Config) (X : Env W) (obj : Option mtb_kvstore_t)
    (key : Nat) (size : Nat) (overwrite : Bool) (s : State W) :
    mtb_kvstore_write_numeric_key P X obj key none size overwrite s
      = ⟨MTB_KVSTORE_BAD_PARAM_ERROR P, obj, s⟩ := by
  cases obj <;> cases hk : _mtb_kvstore_is_valid_key key <;>
    simp [mtb_kvstore_write_numeric_key, hk]

/-- C9: a read with `data != NULL` and `size` null or `*size == 0` returns
`MTB_KVSTORE_BAD_PARAM_ERROR` for every handle and key, and leaves the handle, the data
buffer, `*size` and the whole state (world, calls made, assertions) as they were. -/
theorem read_without_size_is_bad_param (P : Config) (X : Env W)
    (obj : Option mtb_kvstore_t) (key : Nat) (d : List Nat) (size : Option Nat) (s : State W)
    (hs : size = none ∨ size = some 0) :
    mtb_kvstore_read_numeric_key P X obj key (some d) size s
      = ⟨MTB_KVSTORE_BAD_PARAM_ERROR P, obj, some d, size, s⟩ := by
  rcases hs with h | h <;> subst h <;> cases obj <;>
    cases hk : _mtb_kvstore_is_valid_key key <;>
    simp [mtb_kvstore_read_numeric_key, hk]

/-- Witness of C9: a valid handle and key, a buffer, and `*size == 0`. -/
theorem read_without_size_is_bad_param_witness :
    ((some 0 : Option Nat) = none ∨ (some 0 : Option Nat) = some 0)
    ∧ mtb_kvstore_read_numeric_key (sampleConfig true) (refEnv (sampleConfig true))
          (some ⟨0, 1⟩) 1 (some [0, 0]) (some 0) refStart
        = ⟨MTB_KVSTORE_BAD_PARAM_ERROR (sampleConfig true), some ⟨0, 1⟩, some [0, 0], some 0,
            refStart⟩ :=
  ⟨Or.inr rfl,
   read_without_size_is_bad_param (sampleConfig true) (refEnv (sampleConfig true))
      (some ⟨0, 1⟩) 1 [0, 0] (some 0) refStart (Or.inr rfl)⟩

/-- C7: over the reference environment, for every handle, valid key `k`, byte string `v`,
buffer and capacity that is not zero and at least the length of `v`, with the mutex free and
whatever the store held before (the status code OK being one that fits `uint8_t vs_result`):
writing `v` under `k` with overwrite allowed succeeds, and the read that follows succeeds,
stores the length of `v` to `*size` and leaves `v` in the first bytes of the buffer. -/
theorem write_then_read_round_trip (P : Config) (o : mtb_kvstore_t) (k : Nat)
    (v buf : List Nat) (cap : Nat) (store : List (Nat × List Nat)) (tr : List Event)
    (af : Nat) (hk : _mtb_kvstore_is_valid_key k = true) (hcap0 : cap ≠ 0)
    (hcap : v.length ≤ cap) (hok : P.VS_RET_OK < 256) :
    (mtb_kvstore_write_numeric_key P (refEnv P) (some o) k (some v) v.length true
        ⟨⟨store, false⟩, tr, af⟩).result = P.CY_RSLT_SUCCESS
    ∧ (mtb_kvstore_read_numeric_key P (refEnv P)
        (mtb_kvstore_write_numeric_key P (refEnv P) (some o) k (some v) v.length true
          ⟨⟨store, false⟩, tr, af⟩).obj k (some buf) (some cap)
        (mtb_kvstore_write_numeric_key P (refEnv P) (some o) k (some v) v.length true
          ⟨⟨store, false⟩, tr, af⟩).st).result = P.CY_RSLT_SUCCESS
    ∧ (mtb_kvstore_read_numeric_key P (refEnv P)
        (mtb_kvstore_write_numeric_key P (refEnv P) (some o) k (some v) v.length true
          ⟨⟨store, false⟩, tr, af⟩).obj k (some buf) (some cap)
        (mtb_kvstore_write_numeric_key P (refEnv P) (some o) k (some v) v.length true
          ⟨⟨store, false⟩, tr, af⟩).st).size = some v.length
    ∧ (mtb_kvstore_read_numeric_key P (refEnv P)
        (mtb_kvstore_write_numeric_key P (refEnv P) (some o) k (some v) v.length true
          ⟨⟨store, false⟩, tr, af⟩).obj k (some buf) (some cap)
        (mtb_kvstore_write_numeric_key P (refEnv P) (some o) k (some v) v.length true
          ⟨⟨store, false⟩, tr, af⟩).st).data.map (List.take v.length) = some v := by
  have hmod : P.VS_RET_OK % 256 = P.VS_RET_OK := Nat.mod_eq_of_lt hok
  have hlt : ¬ cap < v.length := by omega
  cases hrt : P.rtosAware <;>
    simp [mtb_kvstore_write_numeric_key, mtb_kvstore_read_numeric_key, _mtb_kvstore_lock,
      _mtb_kvstore_unlock, _mtb_kvstore_convert_result, CY_ASSERT, refEnv, hk, hrt, hmod,
      hcap0, hlt, List.lookup]

/-- Witness of C7: key 7 held one byte before; three bytes are written and read back into a
buffer of four. -/
theorem write_then_read_round_trip_witness :
    _mtb_kvstore_is_valid_key 7 = true ∧ (4 : Nat) ≠ 0 ∧ [1, 2, 3].length ≤ 4
    ∧ (sampleConfig true).VS_RET_OK < 256
    ∧ (mtb_kvstore_read_numeric_key (sampleConfig true) (refEnv (sampleConfig true))
        (mtb_kvstore_write_numeric_key (sampleConfig true) (refEnv (sampleConfig true))
          (some ⟨0, 1⟩) 7 (some [1, 2, 3]) [1, 2, 3].length true
          ⟨⟨[(7, [9])], false⟩, [], 0⟩).obj 7 (some [0, 0, 0, 0]) (some 4)
        (mtb_kvstore_write_numeric_key (sampleConfig true) (refEnv (sampleConfig true))
          (some ⟨0, 1⟩) 7 (some [1, 2, 3]) [1, 2, 3].length true
          ⟨⟨[(7, [9])], false⟩, [], 0⟩).st).data.map (List.take [1, 2, 3].length)
      = some [1, 2, 3] :=
  ⟨by decide, by decide, by decide, by decide,
   (write_then_read_round_trip (sampleConfig true) ⟨0, 1⟩ 7 [1, 2, 3] [0, 0, 0, 0] 4
      [(7, [9])] [] 0 (by decide) (by decide) (by decide) (by decide)).2.2.2⟩

/-! ### Shared lemmas on traces -/

@[simp] lemma CY_ASSERT_trace (c : Bool) (s : State W) : (CY_ASSERT c s).trace = s.trace := by
  unfold CY_ASSERT
  split_ifs <;> rfl

@[simp] lemma newCalls_self (t : List Event) : newCalls t t = [] := by
  simp [newCalls]

@[simp] lemma newCalls_append (t es : List Event) : newCalls t (t ++ es) = es := by
  simp [newCalls]

lemma disciplined_of_no_call (P : Config) (m m1 : Nat) (t : List Event) :
    disciplined P m m1 false t t := by
  simp [disciplined, heldAfter, acquiresWhileHeld, mutexUntouched]

/-- The trace of one locked section: the acquisition, then on success one backend call `c`
and the release. -/
lemma disciplined_locked (P : Config) (X : Env W) (o : mtb_kvstore_t) (s st : State W)
    (c : Event) (hc : c.isBackend = true)
    (hst : st.trace = (_mtb_kvstore_lock P X o s).2.2.trace ++ [c]) (after : List Event)
    (hafter : after =
      if (_mtb_kvstore_lock P X o s).1 = P.CY_RSLT_SUCCESS then
        (_mtb_kvstore_unlock P X (_mtb_kvstore_lock P X o s).2.1 st).2.trace
      else (_mtb_kvstore_lock P X o s).2.2.trace) :
    disciplined P o.mtb_kvstore_mutex
      (X.cy_rtos_get_mutex o.mtb_kvstore_mutex P.MTB_KVSTORE_MUTEX_TIMEOUT_MS s.world).2.1
      true s.trace after := by
  subst hafter
  have hu : (_mtb_kvstore_unlock P X (_mtb_kvstore_lock P X o s).2.1 st).2.trace
      = if P.rtosAware then
          st.trace ++ [Event.set_mutex (_mtb_kvstore_lock P X o s).2.1.mtb_kvstore_mutex
            (X.cy_rtos_set_mutex (_mtb_kvstore_lock P X o s).2.1.mtb_kvstore_mutex
              st.world).1]
        else st.trace := by
    unfold _mtb_kvstore_unlock
    split_ifs <;> simp
  rw [hu, hst]
  cases c <;> simp [Event.isBackend] at hc <;>
  cases hrt : P.rtosAware <;>
  by_cases hg : (X.cy_rtos_get_mutex o.mtb_kvstore_mutex P.MTB_KVSTORE_MUTEX_TIMEOUT_MS
      s.world).1 = P.CY_RSLT_SUCCESS <;>
  simp [disciplined, _mtb_kvstore_lock, hrt, hg, heldAfter, releasesSucceed,
    acquiresWhileHeld, mutexUntouched, lockedCallsOn, failedAcquisitionOn, Event.isMutex,
    Event.isBackend]

/-- C10 (as amended): with `CY_ASSERT` compiled out, so that a failed assertion does not
halt, every write, read, delete and reset on a non-null handle, for every argument
combination and every backend status, only adds calls to the trace, and starting with the
handle's mutex not held by the caller never asks for it while holding it and returns with
it not held unless the release it made failed; in an RTOS-aware build a call whose arguments
reach the lock makes either exactly a successful bounded acquisition of the handle's mutex,
one backend call and the release of that same mutex object, or exactly the one failed
acquisition; every other call (a parameter error, a size-query or existence read, or any
call of a build without RTOS support) makes no call into the mutex API; and with a null
handle the four operations add no call at all. -/
theorem lock_discipline (P : Config) (X : Env W) (o : mtb_kvstore_t) (key : Nat)
    (data : Option (List Nat)) (size : Nat) (overwrite : Bool) (rsize : Option Nat)
    (s : State W) :
    disciplined P o.mtb_kvstore_mutex
        (X.cy_rtos_get_mutex o.mtb_kvstore_mutex P.MTB_KVSTORE_MUTEX_TIMEOUT_MS s.world).2.1
        (_mtb_kvstore_is_valid_key key && data.isSome) s.trace
        (mtb_kvstore_write_numeric_key P X (some o) key data size overwrite s).st.trace
    ∧ disciplined P o.mtb_kvstore_mutex
        (X.cy_rtos_get_mutex o.mtb_kvstore_mutex P.MTB_KVSTORE_MUTEX_TIMEOUT_MS s.world).2.1
        (_mtb_kvstore_is_valid_key key && data.isSome && (rsize.isSome && rsize != some 0))
        s.trace (mtb_kvstore_read_numeric_key P X (some o) key data rsize s).st.trace
    ∧ disciplined P o.mtb_kvstore_mutex
        (X.cy_rtos_get_mutex o.mtb_kvstore_mutex P.MTB_KVSTORE_MUTEX_TIMEOUT_MS s.world).2.1
        (_mtb_kvstore_is_valid_key key) s.trace
        (mtb_kvstore_delete_numeric_key P X (some o) key s).st.trace
    ∧ disciplined P o.mtb_kvstore_mutex
        (X.cy_rtos_get_mutex o.mtb_kvstore_mutex P.MTB_KVSTORE_MUTEX_TIMEOUT_MS s.world).2.1
        true s.trace (mtb_kvstore_reset P X (some o) s).st.trace
    ∧ (mtb_kvstore_write_numeric_key P X none key data size overwrite s).st.trace = s.trace
    ∧ (mtb_kvstore_read_numeric_key P X none key data rsize s).st.trace = s.trace
    ∧ (mtb_kvstore_delete_numeric_key P X none key s).st.trace = s.trace
    ∧ (mtb_kvstore_reset P X none s).st.trace = s.trace := by
  refine ⟨?_, ?_, ?_, ?_, ?_, ?_, ?_, rfl⟩
  · cases hk : _mtb_kvstore_is_valid_key key
    · simpa [mtb_kvstore_write_numeric_key, hk] using disciplined_of_no_call P _ _ s.trace
    rcases data with _ | d
    · simpa [mtb_kvstore_write_numeric_key, hk] using disciplined_of_no_call P _ _ s.trace
    simp only [Option.isSome_some, Bool.and_self]
    refine disciplined_locked P X o s
      (_mtb_kvstore_convert_result P
        ((X.config_VS_write key d size overwrite (_mtb_kvstore_lock P X o s).2.2.world).1
          % 256)
        { (_mtb_kvstore_lock P X o s).2.2 with
          world := (X.config_VS_write key d size overwrite
            (_mtb_kvstore_lock P X o s).2.2.world).2,
          trace := (_mtb_kvstore_lock P X o s).2.2.trace ++
            [Event.VS_write key d size overwrite
              (X.config_VS_write key d size overwrite
                (_mtb_kvstore_lock P X o s).2.2.world).1] }).2
      (Event.VS_write key d size overwrite
        (X.config_VS_write key d size overwrite (_mtb_kvstore_lock P X o s).2.2.world).1)
      rfl (convert_result_trace P _ _) _ ?_
    simp only [mtb_kvstore_write_numeric_key, hk]
    split_ifs <;> rfl
  · cases hk : _mtb_kvstore_is_valid_key key
    · simpa [mtb_kvstore_read_numeric_key, hk] using disciplined_of_no_call P _ _ s.trace
    rcases data with _ | d
    · rcases rsize with _ | n <;>
        simp [mtb_kvstore_read_numeric_key, hk, convert_result_trace, disciplined, heldAfter,
          acquiresWhileHeld, releasesSucceed, mutexUntouched, Event.isMutex]
    rcases rsize with _ | n
    · simpa [mtb_kvstore_read_numeric_key, hk] using disciplined_of_no_call P _ _ s.trace
    by_cases hn : n = 0
    · subst hn
      simpa [mtb_kvstore_read_numeric_key, hk] using disciplined_of_no_call P _ _ s.trace
    have hb : (true && Option.isSome (some d)
        && (Option.isSome (some n) && (some n != some 0))) = true := by
      simp [hn]
    rw [hb]
    refine disciplined_locked P X o s
      (_mtb_kvstore_convert_result P
        ((X.config_VS_read key d n (_mtb_kvstore_lock P X o s).2.2.world).1 % 256)
        { (_mtb_kvstore_lock P X o s).2.2 with
          world := (X.config_VS_read key d n (_mtb_kvstore_lock P X o s).2.2.world).2.2.2,
          trace := (_mtb_kvstore_lock P X o s).2.2.trace ++
            [Event.VS_read key d n
              (X.config_VS_read key d n (_mtb_kvstore_lock P X o s).2.2.world).1] }).2
      (Event.VS_read key d n
        (X.config_VS_read key d n (_mtb_kvstore_lock P X o s).2.2.world).1)
      rfl (convert_result_trace P _ _) _ ?_
    simp only [mtb_kvstore_read_numeric_key, hk, if_neg hn]
    split_ifs <;> rfl
  · cases hk : _mtb_kvstore_is_valid_key key
    · simpa [mtb_kvstore_delete_numeric_key, hk] using disciplined_of_no_call P _ _ s.trace
    refine disciplined_locked P X o s
      (_mtb_kvstore_convert_result P
        ((X.config_VS_delete key (_mtb_kvstore_lock P X o s).2.2.world).1 % 256)
        { (_mtb_kvstore_lock P X o s).2.2 with
          world := (X.config_VS_delete key (_mtb_kvstore_lock P X o s).2.2.world).2,
          trace := (_mtb_kvstore_lock P X o s).2.2.trace ++
            [Event.VS_delete key
              (X.config_VS_delete key (_mtb_kvstore_lock P X o s).2.2.world).1] }).2
      (Event.VS_delete key (X.config_VS_delete key (_mtb_kvstore_lock P X o s).2.2.world).1)
      rfl (convert_result_trace P _ _) _ ?_
    simp only [mtb_kvstore_delete_numeric_key, hk]
    split_ifs <;> rfl
  · refine disciplined_locked P X o s
      (_mtb_kvstore_convert_result P
        ((X.config_VS_erase (_mtb_kvstore_lock P X o s).2.2.world).1 % 256)
        { (_mtb_kvstore_lock P X o s).2.2 with
          world := (X.config_VS_erase (_mtb_kvstore_lock P X o s).2.2.world).2,
          trace := (_mtb_kvstore_lock P X o s).2.2.trace ++
            [Event.VS_erase (X.config_VS_erase (_mtb_kvstore_lock P X o s).2.2.world).1] }).2
      (Event.VS_erase (X.config_VS_erase (_mtb_kvstore_lock P X o s).2.2.world).1)
      rfl (convert_result_trace P _ _) _ ?_
    simp only [mtb_kvstore_reset]
    split_ifs <;> rfl
  · simp [mtb_kvstore_write_numeric_key]
  · simp [mtb_kvstore_read_numeric_key]
  · simp [mtb_kvstore_delete_numeric_key]

/-- Witness of C10: a write that takes the lock on the reference environment, leaving
exactly acquisition, backend write and release on the handle's mutex 1. -/
theorem lock_discipline_witness :
    disciplined (sampleConfig true) 1 1 true []
      [Event.get_mutex 1 50 0, Event.VS_write 1 [7] 1 true 0, Event.set_mutex 1 0] :=
  (lock_discipline (sampleConfig true) (refEnv (sampleConfig true)) ⟨0, 1⟩ 1 (some [7]) 1
    true none refStart).1

/-- C10 (counterexample): a write with valid arguments while somebody else holds the mutex
returns the timeout status after exactly one call, the failed `cy_rtos_get_mutex`; these
calls are not acquisition, backend call, release, and they do touch the mutex. -/
theorem failed_acquisition_is_a_third_path :
    (mtb_kvstore_write_numeric_key (sampleConfig true) (refEnv (sampleConfig true))
        (some ⟨0, 1⟩) 1 (some [7]) 1 true refBusy).result = refTimeout (sampleConfig true)
    ∧ (mtb_kvstore_write_numeric_key (sampleConfig true) (refEnv (sampleConfig true))
        (some ⟨0, 1⟩) 1 (some [7]) 1 true refBusy).st.trace
      = refBusy.trace ++ [Event.get_mutex 1 50 (refTimeout (sampleConfig true))]
    ∧ lockedCalls (sampleConfig true)
        [Event.get_mutex 1 50 (refTimeout (sampleConfig true))] = false
    ∧ mutexUntouched [Event.get_mutex 1 50 (refTimeout (sampleConfig true))] = false := by
  decide

/-! ### Teardown -/

lemma deinit_rtos_eq (P : Config) (X : Env W) (o : mtb_kvstore_t) (s : State W)
    (hrtos : P.rtosAware = true) :
    mtb_kvstore_deinit P X (some o) s
      = some (some ⟨o.ptr, (deinitRelease P X o s).2.1⟩,
          ⟨(deinitDestroy P X o s).2.2, s.trace ++ deinitCalls P X o s,
            s.assert_failures + assertCount P (deinitAcquire P X o s).1
              + assertCount P (deinitRelease P X o s).1
              + assertCount P (deinitDestroy P X o s).1⟩) := by
  by_cases h1 : (X.cy_rtos_get_mutex o.mtb_kvstore_mutex P.CY_RTOS_NEVER_TIMEOUT s.world).1
      = P.CY_RSLT_SUCCESS <;>
  by_cases h2 : (X.cy_rtos_set_mutex
      (X.cy_rtos_get_mutex o.mtb_kvstore_mutex P.CY_RTOS_NEVER_TIMEOUT s.world).2.1
      (X.cy_rtos_get_mutex o.mtb_kvstore_mutex P.CY_RTOS_NEVER_TIMEOUT s.world).2.2).1
      = P.CY_RSLT_SUCCESS <;>
  by_cases h3 : (X.cy_rtos_deinit_mutex
      (X.cy_rtos_get_mutex o.mtb_kvstore_mutex P.CY_RTOS_NEVER_TIMEOUT s.world).2.1
      (X.cy_rtos_set_mutex
        (X.cy_rtos_get_mutex o.mtb_kvstore_mutex P.CY_RTOS_NEVER_TIMEOUT s.world).2.1
        (X.cy_rtos_get_mutex o.mtb_kvstore_mutex P.CY_RTOS_NEVER_TIMEOUT s.world).2.2).2.2).1
      = P.CY_RSLT_SUCCESS <;>
  simp [mtb_kvstore_deinit, _mtb_kvstore_lock_wait_forever, _mtb_kvstore_unlock, CY_ASSERT,
    hrtos, deinitAcquire, deinitRelease, deinitDestroy, deinitCalls, assertCount, h1, h2, h3]

lemma lock_keeps_handle (P : Config) (X : Env W)
    (hget : ∀ m t w, (X.cy_rtos_get_mutex m t w).2.1 = m) (o : mtb_kvstore_t) (s : State W) :
    (_mtb_kvstore_lock P X o s).2.1 = o := by
  unfold _mtb_kvstore_lock
  split_ifs <;> simp [hget]

lemma unlock_keeps_handle (P : Config) (X : Env W)
    (hset : ∀ m w, (X.cy_rtos_set_mutex m w).2.1 = m) (o : mtb_kvstore_t) (s : State W) :
    (_mtb_kvstore_unlock P X o s).1 = o := by
  unfold _mtb_kvstore_unlock
  split_ifs <;> simp [hset]

lemma operations_keep_handle (P : Config) (X : Env W)
    (hget : ∀ m t w, (X.cy_rtos_get_mutex m t w).2.1 = m)
    (hset : ∀ m w, (X.cy_rtos_set_mutex m w).2.1 = m)
    (o : mtb_kvstore_t) (key : Nat) (data : Option (List Nat)) (size : Nat)
    (overwrite : Bool) (rsize : Option Nat) (s : State W) :
    (mtb_kvstore_write_numeric_key P X (some o) key data size overwrite s).obj = some o
    ∧ (mtb_kvstore_read_numeric_key P X (some o) key data rsize s).obj = some o
    ∧ (mtb_kvstore_delete_numeric_key P X (some o) key s).obj = some o
    ∧ (mtb_kvstore_reset P X (some o) s).obj = some o := by
  have hl := lock_keeps_handle P X hget o s
  refine ⟨?_, ?_, ?_, ?_⟩
  · cases hk : _mtb_kvstore_is_valid_key key <;> rcases data with _ | d <;>
      simp only [mtb_kvstore_write_numeric_key, hk]
    split_ifs <;> simp [hl, unlock_keeps_handle P X hset]
  · cases hk : _mtb_kvstore_is_valid_key key <;> rcases data with _ | d <;>
      rcases rsize with _ | n <;> simp only [mtb_kvstore_read_numeric_key, hk]
    split_ifs <;> simp [hl, unlock_keeps_handle P X hset]
  · cases hk : _mtb_kvstore_is_valid_key key <;>
      simp only [mtb_kvstore_delete_numeric_key, hk]
    split_ifs <;> simp [hl, unlock_keeps_handle P X hset]
  · simp only [mtb_kvstore_reset]
    split_ifs <;> simp [hl, unlock_keeps_handle P X hset]

/-- Teardown in an RTOS-aware build: `mtb_kvstore_deinit` on a non-null handle returns after
exactly three calls, whatever status each of them returns: the acquisition with
`CY_RTOS_NEVER_TIMEOUT`, the release, and the destruction of the copy of the mutex object
taken in between; none is a backend call.  When the acquisition succeeds the destruction
follows a successful acquisition; when it fails, `CY_ASSERT` counts one failure and release
and destruction are made all the same.  For the handle as `mtb_kvstore_init` left it, and an
acquisition that leaves the mutex object as it is, the three calls are made on the value
`cy_rtos_init_mutex` stored; and write, read, delete and reset leave the handle as it is
when `cy_rtos_get_mutex` and `cy_rtos_set_mutex` leave the mutex object as it is. -/
theorem deinit_call_sequence (P : Config) (X : Env W) (o : mtb_kvstore_t) (s : State W)
    (hrtos : P.rtosAware = true) :
    mtb_kvstore_deinit P X (some o) s
      = some (some ⟨o.ptr, (deinitRelease P X o s).2.1⟩,
          ⟨(deinitDestroy P X o s).2.2, s.trace ++ deinitCalls P X o s,
            s.assert_failures + assertCount P (deinitAcquire P X o s).1
              + assertCount P (deinitRelease P X o s).1
              + assertCount P (deinitDestroy P X o s).1⟩)
    ∧ (∀ e ∈ deinitCalls P X o s, e.isBackend = false)
    ∧ ((deinitAcquire P X o s).1 = P.CY_RSLT_SUCCESS →
        destroyAfterAcquire P false (deinitCalls P X o s) = true)
    ∧ ((deinitAcquire P X o s).1 ≠ P.CY_RSLT_SUCCESS →
        assertCount P (deinitAcquire P X o s).1 = 1
        ∧ destroyAfterAcquire P false (deinitCalls P X o s) = false)
    ∧ (∀ (h : mtb_kvstore_t) (s0 : State W),
        (mtb_kvstore_init P X (some h) s0).obj = some o →
        (deinitAcquire P X o s).2.1 = o.mtb_kvstore_mutex →
        (mtb_kvstore_init P X (some h) s0).st.trace
            = s0.trace ++ [Event.init_mutex 0 (X.cy_rtos_init_mutex 0 s0.world).1]
        ∧ deinitCalls P X o s
            = [ Event.get_mutex (X.cy_rtos_init_mutex 0 s0.world).2.1 P.CY_RTOS_NEVER_TIMEOUT
                  (deinitAcquire P X o s).1,
                Event.set_mutex (X.cy_rtos_init_mutex 0 s0.world).2.1
                  (deinitRelease P X o s).1,
                Event.deinit_mutex (X.cy_rtos_init_mutex 0 s0.world).2.1
                  (deinitDestroy P X o s).1 ])
    ∧ ((∀ m t w, (X.cy_rtos_get_mutex m t w).2.1 = m) →
        (∀ m w, (X.cy_rtos_set_mutex m w).2.1 = m) →
        ∀ (key : Nat) (data : Option (List Nat)) (size : Nat) (overwrite : Bool)
          (rsize : Option Nat) (s1 : State W),
          (mtb_kvstore_write_numeric_key P X (some o) key data size overwrite s1).obj = some o
          ∧ (mtb_kvstore_read_numeric_key P X (some o) key data rsize s1).obj = some o
          ∧ (mtb_kvstore_delete_numeric_key P X (some o) key s1).obj = some o
          ∧ (mtb_kvstore_reset P X (some o) s1).obj = some o) := by
  refine ⟨deinit_rtos_eq P X o s hrtos, ?_, ?_, ?_, ?_, ?_⟩
  · intro e he
    simp only [deinitCalls, List.mem_cons, List.mem_singleton, List.not_mem_nil, or_false]
      at he
    rcases he with h | h | h <;> subst h <;> rfl
  · intro h
    simp [deinitCalls, destroyAfterAcquire, h]
  · intro h
    simp [deinitCalls, destroyAfterAcquire, assertCount, h]
  · intro h s0 hinit hkeep
    have hm : o.mtb_kvstore_mutex = (X.cy_rtos_init_mutex 0 s0.world).2.1 := by
      simp [mtb_kvstore_init, _mtb_kvstore_initlock, hrtos] at hinit
      rw [← hinit]
    refine ⟨?_, ?_⟩
    · simp [mtb_kvstore_init, _mtb_kvstore_initlock, hrtos]
    · simp only [deinitCalls, hkeep, hm]
  · intro hget hset key data size overwrite rsize s1
    exact operations_keep_handle P X hget hset o key data size overwrite rsize s1

/-- Teardown of the handle with mutex value 1 on the reference environment, the mutex
free: the three calls, each returning success. -/
theorem deinit_call_sequence_witness :
    (sampleConfig true).rtosAware = true
    ∧ (mtb_kvstore_deinit (sampleConfig true) (refEnv (sampleConfig true)) (some ⟨0, 1⟩)
        refStart).map (fun r => r.2.trace)
      = some [Event.get_mutex 1 0xFFFFFFFF 0, Event.set_mutex 1 0, Event.deinit_mutex 1 0] :=
  ⟨rfl,
   congrArg (Option.map (fun r => r.2.trace))
     (deinit_call_sequence (sampleConfig true) (refEnv (sampleConfig true)) ⟨0, 1⟩ refStart
        rfl).1⟩

/-- C11 (the code at the failing input): in a build with `CY_ASSERT` compiled out, when the
acquisition with unbounded wait reports an error, `mtb_kvstore_deinit` still makes the
release and the destruction: the mutex is destroyed with no successful acquisition before
it, past the failed `CY_ASSERT(result == CY_RSLT_SUCCESS)` of
`_mtb_kvstore_lock_wait_forever` (two assertions failed, that one and the one on the
release). -/
theorem deinit_destroys_after_failed_acquire :
    mtb_kvstore_deinit (sampleConfig true) (refusingEnv (sampleConfig true)) (some ⟨0, 1⟩)
        refStart
      = some (some ⟨0, 1⟩,
          ⟨⟨[], false⟩,
           [Event.get_mutex 1 0xFFFFFFFF 1, Event.set_mutex 1 1, Event.deinit_mutex 1 0], 2⟩)
    ∧ destroyAfterAcquire (sampleConfig true) false
        [Event.get_mutex 1 0xFFFFFFFF 1, Event.set_mutex 1 1, Event.deinit_mutex 1 0]
      = false := by
  refine ⟨rfl, by decide⟩

end KvStoreCat5
